import Mathlib

/-!
Shallow embedding of the pomodoro-backend clock engine
(package `internal/clock` of the Go repository) and proofs about it.

Modelling conventions:
* Go `time.Duration` values (int64 nanoseconds) and `time.Time` instants
  (nanoseconds since the epoch) are modelled as unbounded `Int`; none of the
  verified properties depends on int64 overflow.
* Calls to `time.Now()` are modelled by passing the current instant `now`
  explicitly to the functions that read the wall clock.
* A `*time.Timer` field being non-nil ("the timer is live") is modelled by the
  boolean field `running`; `time.Time.IsZero` on `pauseTime` is modelled by the
  boolean `pauseTimeSet`.
* Redis round-trips (`saveStateToRedis`, the periodic save goroutine) have no
  effect on the in-memory engine state and are modelled as no-ops.
* Go methods that mutate a struct in place and return an `error` are modelled
  as functions returning the updated structure together with `Option String`
  (`none` = nil error), or `Except String` where the caller discards the
  receiver on error.
-/

set_option autoImplicit false

namespace PomodoroClock

/-- The `ClockState` string enum of `clock_runner.go`:
`"I"`, `"W"`, `"SB"`, `"LB"`, `"P"`. -/
inductive ClockState where
  | idle
  | working
  | shortBreak
  | longBreak
  | paused
deriving DecidableEq, Repr

/-- The short string code of each state (the Go constant values). -/
def ClockState.code : ClockState → String
  | .idle => "I"
  | .working => "W"
  | .shortBreak => "SB"
  | .longBreak => "LB"
  | .paused => "P"

/-- `ClockStateMap` of `clock_runner.go`, as a lookup from code to state. -/
def clockStateOfCode (s : String) : Option ClockState :=
  if s = "I" then some .idle
  else if s = "W" then some .working
  else if s = "SB" then some .shortBreak
  else if s = "LB" then some .longBreak
  else if s = "P" then some .paused
  else none

/-! ## StateManager (`state.go`) -/

/-- `StateManager` of `state.go` holds just the current `ClockState`. -/
structure StateManager where
  state : ClockState
deriving DecidableEq, Repr

namespace StateManager

/-- `NewStateManager`: starts in `StateIdle`. -/
def new : StateManager := ⟨.idle⟩

def GetState (sm : StateManager) : ClockState := sm.state

def SetState (_sm : StateManager) (s : ClockState) : StateManager := ⟨s⟩

/-- `IsIdle`. -/
def IsIdle (sm : StateManager) : Bool := sm.state = .idle

/-- `IsRunning`: the state is one of the three active phases. -/
def IsRunning (sm : StateManager) : Bool :=
  sm.state = .working || sm.state = .shortBreak || sm.state = .longBreak

/-- `IsPaused`. -/
def IsPaused (sm : StateManager) : Bool := sm.state = .paused

/-- `CanStart`: from idle or paused. -/
def CanStart (sm : StateManager) : Bool :=
  sm.state = .idle || sm.state = .paused

/-- `CanPause`: from an active phase. -/
def CanPause (sm : StateManager) : Bool := sm.IsRunning

/-- `CanStop`: from any non-idle state. -/
def CanStop (sm : StateManager) : Bool := !sm.IsIdle

/-- `CanSkip`: from an active phase or from paused. -/
def CanSkip (sm : StateManager) : Bool := sm.IsRunning || sm.IsPaused

end StateManager

/-! ## TimerManager (`redis_persistence.go`, second compilation unit) -/

/-- `TimerManager`: `running` stands for `timer != nil`; times are in
nanoseconds. `pauseTimeSet` models `!pauseTime.IsZero()`. -/
structure TimerManager where
  running : Bool
  startTime : Int
  pauseTime : Int
  pauseTimeSet : Bool
  timeRemaining : Int
  sessionDuration : Int
  currentState : ClockState
deriving DecidableEq, Repr

namespace TimerManager

/-- `NewTimerManager`: the zero value of the struct. -/
def new : TimerManager :=
  { running := false
    startTime := 0
    pauseTime := 0
    pauseTimeSet := false
    timeRemaining := 0
    sessionDuration := 0
    currentState := .idle }

/-- Internal `stopTimer`: nils out the timer, ticker and cancel function.
It does NOT touch `timeRemaining`. -/
def stopTimer (tm : TimerManager) : TimerManager :=
  { tm with running := false }

/-- `StartTimer`: stops any existing timer, then installs the new session. -/
def StartTimer (tm : TimerManager) (now duration : Int) (state : ClockState) :
    TimerManager :=
  let tm := tm.stopTimer
  { tm with
    sessionDuration := duration
    currentState := state
    timeRemaining := duration
    startTime := now
    running := true }

/-- `getTimeRemainingLocked` (identical body to `GetTimeRemaining`). -/
def getTimeRemainingLocked (tm : TimerManager) (now : Int) : Int :=
  if tm.running = false then tm.timeRemaining
  else
    let elapsed := now - tm.startTime
    if elapsed ≥ tm.sessionDuration then 0
    else tm.sessionDuration - elapsed

/-- `GetTimeRemaining`: frozen value when no live timer, else derived from
elapsed time. -/
def GetTimeRemaining (tm : TimerManager) (now : Int) : Int :=
  tm.getTimeRemainingLocked now

/-- `PauseTimer`: freezes the remaining time and stops the timer; no-op when
no timer is live. -/
def PauseTimer (tm : TimerManager) (now : Int) : TimerManager :=
  if tm.running = false then tm
  else
    let tm :=
      { tm with
        timeRemaining := tm.getTimeRemainingLocked now
        pauseTime := now
        pauseTimeSet := true }
    tm.stopTimer

/-- `ResumeTimer`: no-op when `timeRemaining ≤ 0`; otherwise rebases the start
time and restarts the timer for exactly `timeRemaining`. -/
def ResumeTimer (tm : TimerManager) (now : Int) : TimerManager :=
  if tm.timeRemaining ≤ 0 then tm
  else
    let tm := tm.stopTimer
    let tm :=
      if tm.pauseTimeSet then { tm with startTime := now - (now - tm.pauseTime) }
      else { tm with startTime := now }
    { tm with sessionDuration := tm.timeRemaining, running := true }

/-- Public `StopTimer` = lock + internal `stopTimer`. -/
def StopTimer (tm : TimerManager) : TimerManager := tm.stopTimer

/-- `IsRunning`: `timer != nil`. -/
def IsRunning (tm : TimerManager) : Bool := tm.running

/-- State effect of `handleSessionComplete` (after the completion callback):
ticker and timer are cleared and `timeRemaining` is zeroed. -/
def handleSessionComplete (tm : TimerManager) : TimerManager :=
  { tm with running := false, timeRemaining := 0 }

end TimerManager

/-! ## SessionManager (`unnamed/part_006`, first compilation unit) -/

/-- `SessionManager`: durations in nanoseconds, `currentSession` a Go `int`
(modelled as `Int`). -/
structure SessionManager where
  workDuration : Int
  shortBreakDuration : Int
  longBreakDuration : Int
  schedule : List ClockState
  currentSession : Int
deriving DecidableEq, Repr

/-- One minute in nanoseconds. -/
def minuteNs : Int := 60 * 1000000000

namespace SessionManager

/-- `NewSessionManager`: 25/5/15 minutes, the default 8-entry schedule,
cursor 0. -/
def new : SessionManager :=
  { workDuration := 25 * minuteNs
    shortBreakDuration := 5 * minuteNs
    longBreakDuration := 15 * minuteNs
    schedule := [.working, .shortBreak, .working, .shortBreak,
                 .working, .shortBreak, .working, .longBreak]
    currentSession := 0 }

def SetDurations (sm : SessionManager) (work shortBreak longBreak : Int) :
    SessionManager :=
  { sm with
    workDuration := work
    shortBreakDuration := shortBreak
    longBreakDuration := longBreak }

def GetCurrentSession (sm : SessionManager) : Int := sm.currentSession

def GetTotalSessions (sm : SessionManager) : Int := sm.schedule.length

/-- `GetCurrentSessionState`: `StateIdle` when the cursor is past the end,
else the schedule entry at the cursor. (A negative cursor would panic in Go;
reachable states keep the cursor in range, see the sequencer invariant.) -/
def GetCurrentSessionState (sm : SessionManager) : ClockState :=
  if sm.currentSession ≥ (sm.schedule.length : Int) then .idle
  else sm.schedule.getD sm.currentSession.toNat .idle

/-- `GetCurrentSessionDuration`: 0 past the end, else the configured duration
of the phase under the cursor. -/
def GetCurrentSessionDuration (sm : SessionManager) : Int :=
  if sm.currentSession ≥ (sm.schedule.length : Int) then 0
  else
    match sm.schedule.getD sm.currentSession.toNat .idle with
    | .working => sm.workDuration
    | .shortBreak => sm.shortBreakDuration
    | .longBreak => sm.longBreakDuration
    | _ => 0

/-- `NextSession`: increments the cursor; on reaching the schedule length it
resets the cursor to 0 and returns `false` (cycle complete), else `true`. -/
def NextSession (sm : SessionManager) : SessionManager × Bool :=
  let c := sm.currentSession + 1
  if c ≥ (sm.schedule.length : Int) then ({ sm with currentSession := 0 }, false)
  else ({ sm with currentSession := c }, true)

/-- `ResetSessions`: cursor back to 0. -/
def ResetSessions (sm : SessionManager) : SessionManager :=
  { sm with currentSession := 0 }

/-- `SetCurrentSession`: clamps the supplied index into
`[0, len(schedule)-1]`. -/
def SetCurrentSession (sm : SessionManager) (session : Int) : SessionManager :=
  let session :=
    if session < 0 then 0
    else if session ≥ (sm.schedule.length : Int) then (sm.schedule.length : Int) - 1
    else session
  { sm with currentSession := session }

/-- `SetSchedule`: rejects a schedule containing a non-active phase, rejects
an empty schedule, otherwise replaces the schedule and resets the cursor. -/
def SetSchedule (sm : SessionManager) (schedule : List ClockState) :
    Except String SessionManager :=
  if schedule.any (fun st =>
      !(st = ClockState.working || st = ClockState.shortBreak ||
        st = ClockState.longBreak)) then
    .error "invalid state in schedule"
  else if schedule.length = 0 then
    .error "schedule cannot be empty"
  else
    .ok { sm with schedule := schedule, currentSession := 0 }

end SessionManager

/-! ## StatisticsManager (`unnamed/part_006`, second compilation unit) -/

/-- `SessionRecord`: completion timestamp in nanoseconds. -/
structure SessionRecord where
  state : ClockState
  duration : Int
  completed : Int
deriving DecidableEq, Repr

/-- `StatisticsManager`: completion counters, accumulated times and the
append-only history. -/
structure StatisticsManager where
  totalWorkSessions : Int
  totalShortBreaks : Int
  totalLongBreaks : Int
  totalWorkTime : Int
  totalBreakTime : Int
  totalSessionTime : Int
  sessionHistory : List SessionRecord
deriving DecidableEq, Repr

namespace StatisticsManager

/-- `NewStatisticsManager`. -/
def new : StatisticsManager :=
  { totalWorkSessions := 0
    totalShortBreaks := 0
    totalLongBreaks := 0
    totalWorkTime := 0
    totalBreakTime := 0
    totalSessionTime := 0
    sessionHistory := [] }

/-- `RecordSession`: appends a record stamped `now` and bumps the counter of
the record's state; the Go `switch` has no case for `Idle`/`Paused`, so those
update no counter. `totalSessionTime` always grows by the duration. -/
def RecordSession (st : StatisticsManager) (state : ClockState)
    (duration now : Int) : StatisticsManager :=
  let st :=
    { st with
      sessionHistory :=
        st.sessionHistory ++ [SessionRecord.mk state duration now] }
  let st :=
    match state with
    | .working =>
        { st with
          totalWorkSessions := st.totalWorkSessions + 1
          totalWorkTime := st.totalWorkTime + duration }
    | .shortBreak =>
        { st with
          totalShortBreaks := st.totalShortBreaks + 1
          totalBreakTime := st.totalBreakTime + duration }
    | .longBreak =>
        { st with
          totalLongBreaks := st.totalLongBreaks + 1
          totalBreakTime := st.totalBreakTime + duration }
    | _ => st
  { st with totalSessionTime := st.totalSessionTime + duration }

def GetStatistics (st : StatisticsManager) : Int × Int × Int :=
  (st.totalWorkSessions, st.totalShortBreaks, st.totalLongBreaks)

end StatisticsManager

/-! ## ClockRunner (`clock_runner.go`) -/

/-- `ClockRunner`: the four in-process component managers. Redis persistence,
the save ticker and the registered callbacks have no effect on this state and
are omitted. -/
structure ClockRunner where
  stateManager : StateManager
  sessionManager : SessionManager
  timerManager : TimerManager
  statsManager : StatisticsManager
deriving DecidableEq, Repr

namespace ClockRunner

/-- `NewClockRunner`. -/
def new : ClockRunner :=
  { stateManager := StateManager.new
    sessionManager := SessionManager.new
    timerManager := TimerManager.new
    statsManager := StatisticsManager.new }

/-- `startNewSession`: reads the phase and duration under the cursor, sets the
lifecycle state and starts the timer (the Redis save is a no-op here). -/
def startNewSession (cr : ClockRunner) (now : Int) : ClockRunner :=
  let state := cr.sessionManager.GetCurrentSessionState
  let duration := cr.sessionManager.GetCurrentSessionDuration
  { cr with
    stateManager := cr.stateManager.SetState state
    timerManager := cr.timerManager.StartTimer now duration state }

/-- `Start`: typed failure unless `CanStart`; from idle it resets the
sequencer and starts phase 0, from paused it restores the scheduled phase and
resumes the timer. -/
def Start (cr : ClockRunner) (now : Int) : ClockRunner × Option String :=
  if !cr.stateManager.CanStart then
    (cr, some "cannot start: clock is not in a startable state")
  else if cr.stateManager.IsIdle then
    let cr := { cr with sessionManager := cr.sessionManager.ResetSessions }
    (cr.startNewSession now, none)
  else if cr.stateManager.IsPaused then
    let state := cr.sessionManager.GetCurrentSessionState
    ({ cr with
       stateManager := cr.stateManager.SetState state
       timerManager := cr.timerManager.ResumeTimer now }, none)
  else (cr, none)

/-- `Pause`: typed failure unless `CanPause`; sets `Paused` and freezes the
timer. -/
def Pause (cr : ClockRunner) (now : Int) : ClockRunner × Option String :=
  if !cr.stateManager.CanPause then
    (cr, some "cannot pause: clock is not running")
  else
    ({ cr with
       stateManager := cr.stateManager.SetState .paused
       timerManager := cr.timerManager.PauseTimer now }, none)

/-- `Stop`: typed failure unless `CanStop`; sets `Idle`, resets the sequencer
and stops the timer. -/
def Stop (cr : ClockRunner) : ClockRunner × Option String :=
  if !cr.stateManager.CanStop then
    (cr, some "cannot stop: clock is already idle")
  else
    ({ cr with
       stateManager := cr.stateManager.SetState .idle
       sessionManager := cr.sessionManager.ResetSessions
       timerManager := cr.timerManager.StopTimer }, none)

/-- `Skip`: typed failure unless `CanSkip`; stops the timer, records the
current lifecycle state (which is `Paused` when skipping from pause) with the
scheduled duration, then advances the sequencer: on wrap go idle, else start
the next session. -/
def Skip (cr : ClockRunner) (now : Int) : ClockRunner × Option String :=
  if !cr.stateManager.CanSkip then
    (cr, some "cannot skip: clock is not running")
  else
    let cr := { cr with timerManager := cr.timerManager.StopTimer }
    let duration := cr.sessionManager.GetCurrentSessionDuration
    let cr :=
      { cr with
        statsManager :=
          cr.statsManager.RecordSession cr.stateManager.GetState duration now }
    let (sm, more) := cr.sessionManager.NextSession
    let cr := { cr with sessionManager := sm }
    if !more then
      ({ cr with stateManager := cr.stateManager.SetState .idle }, none)
    else
      (cr.startNewSession now, none)

def GetState (cr : ClockRunner) : ClockState := cr.stateManager.GetState

def GetTimeRemaining (cr : ClockRunner) (now : Int) : Int :=
  cr.timerManager.GetTimeRemaining now

end ClockRunner

/-! ## SystemState and repair (`redis_persistence.go`, first compilation
unit) -/

/-- `SystemState` as stored in Redis: the phase tag is kept as the raw string
(Go's `State string` field), `timeRemaining` is in milliseconds, `endTime` in
nanoseconds since the epoch. -/
structure SystemState where
  currentSession : Int
  endTime : Int
  timezone : String
  state : String
  timeRemaining : Int
  isRunning : Bool
  isPaused : Bool
deriving DecidableEq, Repr

/-- The `validStates` set of `validateAndRepairState`. -/
def isValidStateString (s : String) : Bool :=
  s = "I" || s = "W" || s = "SB" || s = "LB" || s = "P"

/-- First repair block of `validateAndRepairState`: session index outside
`[0, 100]` resets to 0. -/
def repairSessionRange (s : SystemState) : SystemState :=
  if s.currentSession < 0 || s.currentSession > 100 then
    { s with currentSession := 0 }
  else s

/-- Second repair block: an unknown phase tag resets to `"I"`. -/
def repairStateTag (s : SystemState) : SystemState :=
  if !isValidStateString s.state then { s with state := "I" } else s

/-- Third repair block: an Idle tag with running/paused flags or positive
remaining time has the flags cleared and the remaining time zeroed. -/
def repairIdleFlags (s : SystemState) : SystemState :=
  if s.state = "I" && (s.isRunning || s.isPaused || s.timeRemaining > 0) then
    { s with isRunning := false, isPaused := false, timeRemaining := 0 }
  else s

/-- Fourth repair block: running and paused at once resolves to paused. -/
def repairBothFlags (s : SystemState) : SystemState :=
  if s.isRunning && s.isPaused then { s with isRunning := false } else s

/-- Fifth repair block: negative remaining time resets to 0. -/
def repairNegRemaining (s : SystemState) : SystemState :=
  if s.timeRemaining < 0 then { s with timeRemaining := 0 } else s

/-- `RedisPersistence.validateAndRepairState`, applied by `LoadSystemState`
to every non-default state before returning it: the five repair blocks run
in the source order. -/
def validateAndRepairState (s : SystemState) : SystemState :=
  repairNegRemaining (repairBothFlags (repairIdleFlags (repairStateTag
    (repairSessionRange s))))

/-! ## ResumeManager (`resume_manager.go`)

`ResumeFromRedis` is modelled from the point where `LoadSystemState` has
produced a `SystemState`; the "redis unreachable / load failed" branches
(both of which call `resetToIdle`) concern the external store and are not
part of the modelled input. -/

namespace ResumeManager

/-- `shouldResetDueToTimeout`: the persisted absolute deadline is strictly
before the current wall-clock time. -/
def shouldResetDueToTimeout (s : SystemState) (now : Int) : Bool :=
  s.endTime < now

/-- `resetToIdle`: idle lifecycle state, sequencer cursor 0, timer stopped
(the Redis save of the reset state is a no-op on the in-memory state). -/
def resetToIdle (cr : ClockRunner) : ClockRunner :=
  { cr with
    stateManager := cr.stateManager.SetState .idle
    sessionManager := cr.sessionManager.ResetSessions
    timerManager := cr.timerManager.StopTimer }

/-- `validateSystemState`: consistency checks on the loaded state; `some`
is the error message, `none` means valid. -/
def validateSystemState (cr : ClockRunner) (s : SystemState) : Option String :=
  if s.currentSession < 0 || s.currentSession ≥ cr.sessionManager.GetTotalSessions then
    some "current session is out of valid range"
  else if !(s.state = "I" || s.state = "W" || s.state = "SB" ||
            s.state = "LB" || s.state = "P") then
    some "invalid state"
  else if s.state = "I" && (s.isRunning || s.isPaused || s.timeRemaining > 0) then
    some "idle state should not have running/paused flags or remaining time"
  else if s.state = "P" && !s.isPaused then
    some "paused state should have IsPaused=true"
  else if s.isRunning && s.isPaused then
    some "cannot be both running and paused"
  else none

/-- `ClockRunner.synchronizeStateTimer`: repairs lifecycle/timer
desynchronization in both directions. -/
def synchronizeStateTimer (cr : ClockRunner) : ClockRunner :=
  let stateRunning := cr.stateManager.IsRunning
  let timerRunning := cr.timerManager.IsRunning
  let cr :=
    if stateRunning && !timerRunning && !(cr.stateManager.GetState = .paused) then
      { cr with stateManager := cr.stateManager.SetState .idle }
    else cr
  let stateRunning := cr.stateManager.IsRunning
  let timerRunning := cr.timerManager.IsRunning
  if !stateRunning && timerRunning then
    { cr with timerManager := cr.timerManager.StopTimer }
  else cr

/-- `handleCompletedSession`: records the phase that finished while the
server was down, advances the sequencer and either goes idle (wrap) or starts
the next session. -/
def handleCompletedSession (cr : ClockRunner) (completedState : ClockState)
    (now : Int) : ClockRunner :=
  let duration := cr.sessionManager.GetCurrentSessionDuration
  let cr :=
    { cr with
      statsManager := cr.statsManager.RecordSession completedState duration now }
  let (sm, more) := cr.sessionManager.NextSession
  let cr := { cr with sessionManager := sm }
  if !more then
    { cr with stateManager := cr.stateManager.SetState .idle }
  else
    cr.startNewSession now

/-- `resumeRunningSession`: restore the active phase and restart the timer
with `endTime - now`; when that is ≤ 0 the session completed offline. -/
def resumeRunningSession (cr : ClockRunner) (s : SystemState) (now : Int) :
    ClockRunner :=
  let cr :=
    { cr with sessionManager := cr.sessionManager.SetCurrentSession s.currentSession }
  let clockState := (clockStateOfCode s.state).getD .idle
  let cr := { cr with stateManager := cr.stateManager.SetState clockState }
  let remainingTime := s.endTime - now
  if remainingTime ≤ 0 then
    handleCompletedSession cr clockState now
  else
    { cr with timerManager := cr.timerManager.StartTimer now remainingTime clockState }

/-- `resumePausedSession`: restore `Paused`, and when time remains set up the
timer and immediately pause it. -/
def resumePausedSession (cr : ClockRunner) (s : SystemState) (now : Int) :
    ClockRunner :=
  let cr :=
    { cr with sessionManager := cr.sessionManager.SetCurrentSession s.currentSession }
  let cr := { cr with stateManager := cr.stateManager.SetState .paused }
  let sessionState := (clockStateOfCode s.state).getD .idle
  let remainingTime := s.endTime - now
  if remainingTime > 0 then
    let tm := cr.timerManager.StartTimer now remainingTime sessionState
    { cr with timerManager := tm.PauseTimer now }
  else cr

/-- `resumeCompletedSession`. -/
def resumeCompletedSession (cr : ClockRunner) (s : SystemState) (now : Int) :
    ClockRunner :=
  let cr :=
    { cr with sessionManager := cr.sessionManager.SetCurrentSession s.currentSession }
  handleCompletedSession cr ((clockStateOfCode s.state).getD .idle) now

/-- `resumeBasedOnState`: synchronize, validate (reset on violation), then
dispatch on the phase tag and flags. -/
def resumeBasedOnState (cr : ClockRunner) (s : SystemState) (now : Int) :
    ClockRunner :=
  let cr := synchronizeStateTimer cr
  match validateSystemState cr s with
  | some _ => resetToIdle cr
  | none =>
    if s.state = "I" then
      -- `restoreIdleState` has the same state effect as `resetToIdle`.
      resetToIdle cr
    else if s.state = "W" || s.state = "SB" || s.state = "LB" then
      if s.isPaused then resumePausedSession cr s now
      else if s.isRunning then resumeRunningSession cr s now
      else if s.timeRemaining > 0 then resumeRunningSession cr s now
      else resumeCompletedSession cr s now
    else
      resetToIdle cr

/-- `ResumeFromRedis`, from the loaded snapshot on: offline-too-long check
first, then state-directed dispatch (whose internal failures also reset to
idle). -/
def ResumeFromRedis (cr : ClockRunner) (s : SystemState) (now : Int) :
    ClockRunner :=
  if shouldResetDueToTimeout s now then resetToIdle cr
  else resumeBasedOnState cr s now

end ResumeManager

/-! ## Schedule parsing (`utils.go`, `ParseScheduling`) -/

/-- `strings.ReplaceAll(s, c, "")` for a one-character pattern: drop every
occurrence of `c`. -/
def removeChar (c : Char) (l : List Char) : List Char :=
  l.filter (fun x => !(x = c))

/-- `strings.Split` on the one-character separator `-`; like Go, splitting
the empty string yields one empty token. -/
def splitDash (l : List Char) : List (List Char) :=
  l.foldr
    (fun c acc =>
      match acc with
      | [] => [[c]]
      | t :: ts => if c = '-' then [] :: t :: ts else (c :: t) :: ts)
    [[]]

/-- Lookup of a token in `ClockStateMap` (all five short codes are keys). -/
def tokenState (t : List Char) : Option ClockState :=
  if t = ['I'] then some .idle
  else if t = ['W'] then some .working
  else if t = ['S', 'B'] then some .shortBreak
  else if t = ['L', 'B'] then some .longBreak
  else if t = ['P'] then some .paused
  else none

/-- The token loop of `ParseScheduling`: the first token outside
`ClockStateMap` aborts with an error, otherwise the states are collected in
order. -/
def parseTokens : List (List Char) → Except String (List ClockState)
  | [] => .ok []
  | t :: ts =>
    match tokenState t with
    | some st => (parseTokens ts).map (fun rest => st :: rest)
    | none => .error "invalid token"

/-- The whitespace removal plus `-`-split of `ParseScheduling`. -/
def schedulingTokens (s : String) : List (List Char) :=
  splitDash (removeChar '\t' (removeChar '\n' (removeChar ' ' s.data)))

/-- `ParseScheduling` of `utils.go`. -/
def ParseScheduling (s : String) : Except String (List ClockState) :=
  parseTokens (schedulingTokens s)

/-! ## Duration formatting (`utils.go`, `TimeFormatter.FormatDuration`) -/

/-- `%02d` for the non-negative values produced by `FormatDuration`. -/
def pad2 (n : Int) : String :=
  if n < 10 && 0 ≤ n then "0" ++ toString n else toString n

/-- Nanoseconds per second. -/
def secondNs : Int := 1000000000

/-- `time.Duration.Round(time.Second)` for a positive duration: round to the
nearest multiple of one second, half away from zero (int64 saturation is out
of the modelled range). This mirrors `lessThanHalf(r, m)` = `r+r < m`. -/
def roundToSecond (d : Int) : Int :=
  let r := d % secondNs
  if r + r < secondNs then d - r else d + (secondNs - r)

/-- `TimeFormatter.FormatDuration`: `"00:00"` for `d ≤ 0`, else round to the
nearest second and print `int(d.Minutes())` and `int(d.Seconds()) % 60` with
`%02d:%02d`. The float64 conversions of `Minutes`/`Seconds` are exact
integer arithmetic on the rounded value. -/
def FormatDuration (d : Int) : String :=
  if d ≤ 0 then "00:00"
  else
    let d := roundToSecond d
    let minutes := d / (60 * secondNs)
    let seconds := (d / secondNs) % 60
    pad2 minutes ++ ":" ++ pad2 seconds

/-- Modelled from the spec sentence for C10: render a positive duration by
rounding it to the nearest second and printing zero-padded
minutes:seconds-mod-60; `"00:00"` for zero/negative. -/
def formatDurationSpec (d : Int) : String :=
  if d ≤ 0 then "00:00"
  else
    let totalSeconds := (d + 500000000) / secondNs
    pad2 (totalSeconds / 60) ++ ":" ++ pad2 (totalSeconds % 60)

/-! ## Operation sequences

Reachability of component states under the public control surface, used for
the invariants of C6 and C7. -/

/-- A public `TimerManager` call, with the wall-clock instant it happens at.
`complete` is the deadline firing (`handleSessionComplete`). -/
inductive TimerOp where
  | start (now duration : Int) (state : ClockState)
  | pause (now : Int)
  | resume (now : Int)
  | stop
  | complete
deriving DecidableEq, Repr

/-- A call is valid when its configured duration is positive (the engine only
starts timers with the positive configured phase durations). -/
def TimerOp.valid : TimerOp → Prop
  | .start _ d _ => 0 < d
  | _ => True

instance (op : TimerOp) : Decidable op.valid := by
  cases op <;> simp only [TimerOp.valid] <;> infer_instance

/-- Apply one timer call. -/
def applyTimerOp (tm : TimerManager) : TimerOp → TimerManager
  | .start now d st => tm.StartTimer now d st
  | .pause now => tm.PauseTimer now
  | .resume now => tm.ResumeTimer now
  | .stop => tm.StopTimer
  | .complete => tm.handleSessionComplete

/-- Apply a sequence of timer calls to the fresh `TimerManager`. -/
def applyTimerOps (ops : List TimerOp) : TimerManager :=
  ops.foldl applyTimerOp TimerManager.new

/-- A public `SessionManager` call. -/
inductive SessionOp where
  | next
  | reset
  | setCurrent (i : Int)
  | setSchedule (schedule : List ClockState)
  | setDurations (work shortBreak longBreak : Int)
deriving DecidableEq, Repr

/-- Apply one sequencer call; a rejected `SetSchedule` leaves the manager
unchanged (the caller only gets the error). -/
def applySessionOp (sm : SessionManager) : SessionOp → SessionManager
  | .next => (sm.NextSession).1
  | .reset => sm.ResetSessions
  | .setCurrent i => sm.SetCurrentSession i
  | .setSchedule schedule =>
    match sm.SetSchedule schedule with
    | .ok sm2 => sm2
    | .error _ => sm
  | .setDurations w s l => sm.SetDurations w s l

/-- Apply a sequence of sequencer calls to the fresh `SessionManager`. -/
def applySessionOps (ops : List SessionOp) : SessionManager :=
  ops.foldl applySessionOp SessionManager.new

/-- Iterate `NextSession`, keeping only the manager. -/
def nextIter (sm : SessionManager) : Nat → SessionManager
  | 0 => sm
  | k + 1 => ((nextIter sm k).NextSession).1

/-! # Theorems -/

/-- C1: the claim says GetTimeRemaining returns 0 after StopTimer, as do the
spec ("stop() ... clears remaining to 0") and the repository's own `TestStop`
("Expected remaining time to be 0 after stop"). The code disagrees: the
internal `stopTimer` only nils the timer, ticker and cancel function and
never zeroes `timeRemaining`, so after `StartTimer(1s)` followed by
`StopTimer()` the frozen `timeRemaining` is still the full 1s session
duration that `StartTimer` wrote, and `GetTimeRemaining` (timer nil) returns
it. This theorem evaluates the code at that failing input. -/
theorem claim_C1_stopTimer_keeps_stale_remaining :
    ((TimerManager.new.StartTimer 0 1000000000 .working).StopTimer).GetTimeRemaining
        100000000 = 1000000000 ∧
    ¬ ((TimerManager.new.StartTimer 0 1000000000 .working).StopTimer).GetTimeRemaining
        100000000 = 0 := by
  constructor <;> decide

/-- C2: for every loaded snapshot whose `endTime` is strictly before the
current wall-clock time, `ResumeFromRedis` resets the engine to Idle with
session index 0 and a stopped timer, regardless of the snapshot's phase tag
and running/paused flags (the offline-too-long check runs before any
state-directed dispatch). -/
theorem claim_C2_stale_deadline_resets_to_idle
    (cr : ClockRunner) (s : SystemState) (now : Int) (h : s.endTime < now) :
    (ResumeManager.ResumeFromRedis cr s now).GetState = .idle ∧
    (ResumeManager.ResumeFromRedis cr s now).sessionManager.GetCurrentSession = 0 ∧
    (ResumeManager.ResumeFromRedis cr s now).timerManager.IsRunning = false := by
  have hb : ResumeManager.shouldResetDueToTimeout s now = true := by
    simp [ResumeManager.shouldResetDueToTimeout, h]
  simp [ResumeManager.ResumeFromRedis, hb, ResumeManager.resetToIdle,
    ClockRunner.GetState, StateManager.GetState, StateManager.SetState,
    SessionManager.GetCurrentSession, SessionManager.ResetSessions,
    TimerManager.IsRunning, TimerManager.StopTimer, TimerManager.stopTimer]

/-- C2 witness: a running Working snapshot with `endTime` in the past resets
to Idle / session 0 / stopped timer. -/
theorem claim_C2_witness :
    (SystemState.mk 3 0 "UTC" "W" 5000 true false).endTime < 1 ∧
    ((ResumeManager.ResumeFromRedis ClockRunner.new
        (SystemState.mk 3 0 "UTC" "W" 5000 true false) 1).GetState = .idle ∧
     (ResumeManager.ResumeFromRedis ClockRunner.new
        (SystemState.mk 3 0 "UTC" "W" 5000 true false) 1).sessionManager.GetCurrentSession = 0 ∧
     (ResumeManager.ResumeFromRedis ClockRunner.new
        (SystemState.mk 3 0 "UTC" "W" 5000 true false) 1).timerManager.IsRunning = false) :=
  ⟨by decide, claim_C2_stale_deadline_resets_to_idle ClockRunner.new
    (SystemState.mk 3 0 "UTC" "W" 5000 true false) 1 (by decide)⟩

/-- `NextSession` never changes the schedule. -/
theorem nextIter_schedule (sm : SessionManager) (k : Nat) :
    (nextIter sm k).schedule = sm.schedule := by
  induction k with
  | zero => rfl
  | succ k ih =>
    unfold nextIter SessionManager.NextSession
    dsimp only
    split <;> simpa using ih

/-- Starting from cursor 0, the first `k` advances leave the cursor at `k`
as long as `k` is still inside the schedule. -/
theorem nextIter_cursor (sm : SessionManager) (k : Nat)
    (h0 : sm.currentSession = 0) (hk : (k : Int) < (sm.schedule.length : Int)) :
    (nextIter sm k).currentSession = (k : Int) := by
  induction k with
  | zero => simpa using h0
  | succ k ih =>
    have hk1 : (k : Int) < (sm.schedule.length : Int) := by push_cast at hk ⊢; omega
    have ihc := ih hk1
    have hsch := nextIter_schedule sm k
    unfold nextIter SessionManager.NextSession
    rw [hsch, ihc]
    dsimp only
    split
    · rename_i hge; push_cast at hge hk; omega
    · push_cast; ring

/-- C4: for a schedule of length `n ≥ 1` with the cursor at 0, the `k`-th
call to `NextSession` (1 ≤ k ≤ n) returns `true` exactly when `k < n` — so
the first `n-1` calls return `true` and the `n`-th returns `false` — and
after the `n`-th call the cursor is back at 0. -/
theorem claim_C4_advance_wrap (sm : SessionManager) (k : Nat)
    (h0 : sm.currentSession = 0) (hn : 1 ≤ sm.schedule.length)
    (hk1 : 1 ≤ k) (hkn : k ≤ sm.schedule.length) :
    ((nextIter sm (k - 1)).NextSession).2 = decide (k < sm.schedule.length) ∧
    (nextIter sm sm.schedule.length).currentSession = 0 := by
  constructor
  · have hklt : ((k - 1 : Nat) : Int) < (sm.schedule.length : Int) := by
      omega
    have hc := nextIter_cursor sm (k - 1) h0 hklt
    have hsch := nextIter_schedule sm (k - 1)
    unfold SessionManager.NextSession
    rw [hsch, hc]
    dsimp only
    split
    · rename_i hge
      have : ¬ k < sm.schedule.length := by omega
      simp [this]
    · rename_i hlt
      have : k < sm.schedule.length := by omega
      simp [this]
  · have hn1 : sm.schedule.length = (sm.schedule.length - 1) + 1 := by omega
    have hklt : ((sm.schedule.length - 1 : Nat) : Int) < (sm.schedule.length : Int) := by
      omega
    have hc := nextIter_cursor sm (sm.schedule.length - 1) h0 hklt
    have hsch := nextIter_schedule sm (sm.schedule.length - 1)
    rw [hn1]
    unfold nextIter SessionManager.NextSession
    rw [hsch, hc]
    dsimp only
    split
    · rfl
    · rename_i hlt; omega

/-- C4 witness: on the default 8-entry schedule the 8th call wraps: it
returns `false` and the cursor is back at 0. -/
theorem claim_C4_witness :
    SessionManager.new.currentSession = 0 ∧ 1 ≤ SessionManager.new.schedule.length ∧
    (1 ≤ 8 ∧ 8 ≤ SessionManager.new.schedule.length) ∧
    (((nextIter SessionManager.new (8 - 1)).NextSession).2 =
        decide (8 < SessionManager.new.schedule.length) ∧
     (nextIter SessionManager.new SessionManager.new.schedule.length).currentSession = 0) :=
  ⟨by decide, by decide, ⟨by decide, by decide⟩,
    claim_C4_advance_wrap SessionManager.new 8 (by decide) (by decide)
      (by decide) (by decide)⟩

/-- Rounding to the nearest second (half away from zero, as Go's
`Duration.Round`) agrees with adding half a second and flooring. -/
theorem roundToSecond_eq (d : Int) :
    roundToSecond d = ((d + 500000000) / secondNs) * secondNs := by
  unfold roundToSecond secondNs
  dsimp only
  split <;> omega

/-- C10: `FormatDuration` renders `d ≤ 0` as `"00:00"` and a positive `d` by
rounding to the nearest second and printing zero-padded total minutes and
seconds mod 60 — it coincides with the spec-side renderer
`formatDurationSpec` on every duration. -/
theorem claim_C10_formatDuration_refines_spec (d : Int) :
    FormatDuration d = formatDurationSpec d := by
  by_cases hd : d ≤ 0
  · simp [FormatDuration, formatDurationSpec, hd]
  · unfold FormatDuration formatDurationSpec
    rw [if_neg hd, if_neg hd]
    dsimp only
    rw [roundToSecond_eq d]
    have h1 : (d + 500000000) / secondNs * secondNs / (60 * secondNs)
        = (d + 500000000) / secondNs / 60 := by
      unfold secondNs; omega
    have h2 : (d + 500000000) / secondNs * secondNs / secondNs % 60
        = (d + 500000000) / secondNs % 60 := by
      unfold secondNs; omega
    rw [h1, h2]

/-- The token loop of `ParseScheduling` succeeds exactly when every token is
a key of `ClockStateMap`. -/
theorem parseTokens_isOk (ts : List (List Char)) :
    (parseTokens ts).isOk = ts.all (fun t => (tokenState t).isSome) := by
  induction ts with
  | nil => rfl
  | cons t ts ih =>
    unfold parseTokens
    cases htok : tokenState t with
    | none => simp [htok, Except.isOk, Except.toBool]
    | some st =>
      cases hrec : parseTokens ts with
      | ok l => simp [htok, hrec, Except.isOk, Except.toBool, Except.map, ← ih]
      | error e => simp [htok, hrec, Except.isOk, Except.toBool, Except.map, ← ih]

/-- C8 counterexample: the claim says `ParseScheduling` errors on every token
that is not an active-phase short code and that Idle/Paused never appear in a
parsed schedule; but the code accepts every key of `ClockStateMap`, which
includes `"I"` (Idle) and `"P"` (Paused), so `"I-P"` parses successfully to
`[Idle, Paused]`. -/
theorem claim_C8_counterexample :
    ParseScheduling "I-P" = .ok [ClockState.idle, ClockState.paused] := by
  rfl

/-- C8 (amended): `ParseScheduling` returns an error iff some `-`-separated
token (after whitespace removal) is not one of the five `ClockStateMap` short
codes I/W/SB/LB/P — not just the three active-phase codes — and a parsed
schedule may therefore contain Idle and Paused entries (active-phase-only
validation happens later, in `SetSchedule`/`ValidateSchedule`, not during
parsing). -/
theorem claim_C8_parse_ok_iff_tokens_known (s : String) :
    (ParseScheduling s).isOk
      = (schedulingTokens s).all (fun t => (tokenState t).isSome) := by
  unfold ParseScheduling
  exact parseTokens_isOk (schedulingTokens s)

/-- C5 counterexample: the claim says every state returned by
`LoadSystemState` satisfies "Paused phase implies pausedFlag true", with
violations repaired before return. But `validateAndRepairState` — the only
repair `LoadSystemState` applies — has no rule for that invariant: the
stored hash `{state: "P"}` (paused tag, no flags) parses to this state and
is returned untouched, with `state = "P"` and `isPaused = false`. -/
theorem claim_C5_counterexample :
    (validateAndRepairState (SystemState.mk 0 0 "" "P" 0 false false)).state = "P" ∧
    (validateAndRepairState (SystemState.mk 0 0 "" "P" 0 false false)).isPaused = false := by
  constructor <;> rfl

/-- The first repair block establishes the session range. -/
theorem repairSessionRange_range (s : SystemState) :
    0 ≤ (repairSessionRange s).currentSession ∧
      (repairSessionRange s).currentSession ≤ 100 := by
  unfold repairSessionRange
  split
  · simp
  · rename_i h; simp at h; omega

/-- The later repair blocks never touch the session index. -/
theorem repair_currentSession_eq (s : SystemState) :
    (repairStateTag s).currentSession = s.currentSession ∧
    (repairIdleFlags s).currentSession = s.currentSession ∧
    (repairBothFlags s).currentSession = s.currentSession ∧
    (repairNegRemaining s).currentSession = s.currentSession := by
  unfold repairStateTag repairIdleFlags repairBothFlags repairNegRemaining
  refine ⟨?_, ?_, ?_, ?_⟩ <;> (split <;> rfl)

/-- The second repair block establishes a known phase tag. -/
theorem repairStateTag_valid (s : SystemState) :
    isValidStateString (repairStateTag s).state = true := by
  unfold repairStateTag
  split
  · simp [isValidStateString]
  · rename_i h; simp at h; exact h

/-- The repair blocks after the second never touch the phase tag. -/
theorem repair_state_eq (s : SystemState) :
    (repairIdleFlags s).state = s.state ∧
    (repairBothFlags s).state = s.state ∧
    (repairNegRemaining s).state = s.state := by
  unfold repairIdleFlags repairBothFlags repairNegRemaining
  refine ⟨?_, ?_, ?_⟩ <;> (split <;> rfl)

/-- The third repair block establishes the Idle consistency invariant (up to
the sign of the remaining time, zeroed later by the fifth block). -/
theorem repairIdleFlags_idle (s : SystemState)
    (h : (repairIdleFlags s).state = "I") :
    (repairIdleFlags s).isRunning = false ∧
    (repairIdleFlags s).isPaused = false ∧
    (repairIdleFlags s).timeRemaining ≤ 0 := by
  unfold repairIdleFlags at h ⊢
  by_cases hc : (s.state = "I" &&
      (s.isRunning || s.isPaused || decide (s.timeRemaining > 0))) = true
  · simp [hc]
  · simp [hc] at h ⊢
    simp [h] at hc
    exact ⟨hc.1.1, hc.1.2, hc.2⟩

/-- The fourth repair block preserves the Idle consistency invariant. -/
theorem repairBothFlags_idle (s : SystemState)
    (h : s.state = "I" →
      s.isRunning = false ∧ s.isPaused = false ∧ s.timeRemaining ≤ 0) :
    (repairBothFlags s).state = "I" →
    (repairBothFlags s).isRunning = false ∧
    (repairBothFlags s).isPaused = false ∧
    (repairBothFlags s).timeRemaining ≤ 0 := by
  unfold repairBothFlags
  split <;> intro hst <;> simp_all

/-- The fifth repair block turns "remaining ≤ 0 when Idle" into
"remaining = 0 when Idle". -/
theorem repairNegRemaining_idle (s : SystemState)
    (h : s.state = "I" →
      s.isRunning = false ∧ s.isPaused = false ∧ s.timeRemaining ≤ 0) :
    (repairNegRemaining s).state = "I" →
    (repairNegRemaining s).isRunning = false ∧
    (repairNegRemaining s).isPaused = false ∧
    (repairNegRemaining s).timeRemaining = 0 := by
  unfold repairNegRemaining
  split
  · intro hst; simp_all
  · intro hst; simp_all; omega

/-- The fourth repair block establishes flag mutual exclusion. -/
theorem repairBothFlags_mutex (s : SystemState) :
    ((repairBothFlags s).isRunning && (repairBothFlags s).isPaused) = false := by
  unfold repairBothFlags
  split
  · simp
  · rename_i h; simpa using h

/-- The fifth repair block never touches the flags. -/
theorem repairNegRemaining_flags (s : SystemState) :
    (repairNegRemaining s).isRunning = s.isRunning ∧
    (repairNegRemaining s).isPaused = s.isPaused := by
  unfold repairNegRemaining
  constructor <;> (split <;> rfl)

/-- The fifth repair block establishes a non-negative remaining time. -/
theorem repairNegRemaining_nonneg (s : SystemState) :
    0 ≤ (repairNegRemaining s).timeRemaining := by
  unfold repairNegRemaining
  split
  · simp
  · rename_i h; simp at h; omega

/-- C5 (amended): every output of `validateAndRepairState` — and hence every
non-default state returned by `LoadSystemState`, which applies it last —
satisfies the repaired invariants: session index in `[0,100]`, phase tag one
of the five known tags, Idle implies no running/paused flags and zero
remaining, running and paused mutually exclusive, and non-negative remaining
time. The invariant "Paused phase implies pausedFlag" is NOT repaired (see
the counterexample); it is only checked later by
`ResumeManager.validateSystemState`, which resets to idle instead. -/
theorem claim_C5_load_repair_invariants (s : SystemState) :
    0 ≤ (validateAndRepairState s).currentSession ∧
    (validateAndRepairState s).currentSession ≤ 100 ∧
    isValidStateString (validateAndRepairState s).state = true ∧
    ((validateAndRepairState s).state = "I" →
      (validateAndRepairState s).isRunning = false ∧
      (validateAndRepairState s).isPaused = false ∧
      (validateAndRepairState s).timeRemaining = 0) ∧
    ((validateAndRepairState s).isRunning && (validateAndRepairState s).isPaused) = false ∧
    0 ≤ (validateAndRepairState s).timeRemaining := by
  unfold validateAndRepairState
  refine ⟨?_, ?_, ?_, ?_, ?_, ?_⟩
  · rw [(repair_currentSession_eq _).2.2.2, (repair_currentSession_eq _).2.2.1,
      (repair_currentSession_eq _).2.1, (repair_currentSession_eq _).1]
    exact (repairSessionRange_range s).1
  · rw [(repair_currentSession_eq _).2.2.2, (repair_currentSession_eq _).2.2.1,
      (repair_currentSession_eq _).2.1, (repair_currentSession_eq _).1]
    exact (repairSessionRange_range s).2
  · rw [(repair_state_eq _).2.2, (repair_state_eq _).2.1, (repair_state_eq _).1]
    exact repairStateTag_valid _
  · exact repairNegRemaining_idle _
      (repairBothFlags_idle _ (repairIdleFlags_idle _))
  · rw [(repairNegRemaining_flags _).1, (repairNegRemaining_flags _).2]
    exact repairBothFlags_mutex _
  · exact repairNegRemaining_nonneg _

/-- C5 witness: the amended invariants evaluated on a thoroughly corrupted
stored state (out-of-range session, unknown tag, both flags, negative
remaining). -/
theorem claim_C5_witness :
    0 ≤ (validateAndRepairState (SystemState.mk 500 0 "" "XX" (-7) true true)).currentSession ∧
    (validateAndRepairState (SystemState.mk 500 0 "" "XX" (-7) true true)).currentSession ≤ 100 ∧
    isValidStateString (validateAndRepairState (SystemState.mk 500 0 "" "XX" (-7) true true)).state = true ∧
    ((validateAndRepairState (SystemState.mk 500 0 "" "XX" (-7) true true)).state = "I" →
      (validateAndRepairState (SystemState.mk 500 0 "" "XX" (-7) true true)).isRunning = false ∧
      (validateAndRepairState (SystemState.mk 500 0 "" "XX" (-7) true true)).isPaused = false ∧
      (validateAndRepairState (SystemState.mk 500 0 "" "XX" (-7) true true)).timeRemaining = 0) ∧
    ((validateAndRepairState (SystemState.mk 500 0 "" "XX" (-7) true true)).isRunning &&
      (validateAndRepairState (SystemState.mk 500 0 "" "XX" (-7) true true)).isPaused) = false ∧
    0 ≤ (validateAndRepairState (SystemState.mk 500 0 "" "XX" (-7) true true)).timeRemaining :=
  claim_C5_load_repair_invariants (SystemState.mk 500 0 "" "XX" (-7) true true)

/-- The remaining-time computation is non-negative whenever the frozen value
is: the running branch is clamped at zero by construction. -/
theorem getTimeRemainingLocked_nonneg (tm : TimerManager) (now : Int)
    (h : 0 ≤ tm.timeRemaining) : 0 ≤ tm.getTimeRemainingLocked now := by
  unfold TimerManager.getTimeRemainingLocked
  split
  · exact h
  · dsimp only
    split <;> omega

/-- Every valid timer call keeps the frozen remaining time non-negative. -/
theorem applyTimerOp_invariant (tm : TimerManager) (op : TimerOp)
    (hv : op.valid) (h : 0 ≤ tm.timeRemaining) :
    0 ≤ (applyTimerOp tm op).timeRemaining := by
  cases op with
  | start now d st =>
    have hd : (0 : Int) < d := hv
    simp only [applyTimerOp, TimerManager.StartTimer, TimerManager.stopTimer]
    omega
  | pause now =>
    simp only [applyTimerOp, TimerManager.PauseTimer]
    split
    · exact h
    · simpa [TimerManager.stopTimer]
        using getTimeRemainingLocked_nonneg tm now h
  | resume now =>
    simp only [applyTimerOp, TimerManager.ResumeTimer]
    split
    · exact h
    · dsimp only
      split <;> simpa [TimerManager.stopTimer] using h
  | stop =>
    simpa only [applyTimerOp, TimerManager.StopTimer, TimerManager.stopTimer]
      using h
  | complete =>
    simp [applyTimerOp, TimerManager.handleSessionComplete]

/-- The frozen remaining time is non-negative after any valid call sequence,
starting from any non-negative frozen value. -/
theorem foldl_timerOps_invariant (ops : List TimerOp) (tm : TimerManager)
    (hv : ∀ op ∈ ops, op.valid) (h : 0 ≤ tm.timeRemaining) :
    0 ≤ (ops.foldl applyTimerOp tm).timeRemaining := by
  induction ops generalizing tm with
  | nil => simpa using h
  | cons op ops ih =>
    simp only [List.foldl_cons]
    exact ih (applyTimerOp tm op) (fun o ho => hv o (List.mem_cons_of_mem _ ho))
      (applyTimerOp_invariant tm op (hv op (List.mem_cons_self _ _)) h)

/-- C6: after any sequence of valid timer calls (positive configured
durations), `GetTimeRemaining` is non-negative; when no timer is live it
returns the frozen remaining value, and when a timer is live it returns
`max 0 (sessionDuration - elapsed)`. -/
theorem claim_C6_remaining_never_negative (ops : List TimerOp) (now : Int)
    (hv : ∀ op ∈ ops, op.valid) :
    0 ≤ (applyTimerOps ops).GetTimeRemaining now ∧
    ((applyTimerOps ops).IsRunning = false →
      (applyTimerOps ops).GetTimeRemaining now = (applyTimerOps ops).timeRemaining) ∧
    ((applyTimerOps ops).IsRunning = true →
      (applyTimerOps ops).GetTimeRemaining now =
        max 0 ((applyTimerOps ops).sessionDuration -
          (now - (applyTimerOps ops).startTime))) := by
  have hinv : 0 ≤ (applyTimerOps ops).timeRemaining :=
    foldl_timerOps_invariant ops TimerManager.new hv (by decide)
  refine ⟨getTimeRemainingLocked_nonneg _ now hinv, ?_, ?_⟩
  · intro hr
    unfold TimerManager.GetTimeRemaining TimerManager.getTimeRemainingLocked
    simp [TimerManager.IsRunning] at hr
    simp [hr]
  · intro hr
    unfold TimerManager.GetTimeRemaining TimerManager.getTimeRemainingLocked
    simp [TimerManager.IsRunning] at hr
    rw [if_neg (by simp [hr])]
    dsimp only
    rw [max_def]
    split <;> split <;> omega

/-- C6 witness: start a 1000ns session at t=0, pause at t=300; the timer is
then frozen at 700 ≥ 0. -/
theorem claim_C6_witness :
    (∀ op ∈ [TimerOp.start 0 1000 ClockState.working, TimerOp.pause 300], op.valid) ∧
    (0 ≤ (applyTimerOps [TimerOp.start 0 1000 ClockState.working,
        TimerOp.pause 300]).GetTimeRemaining 500 ∧
     ((applyTimerOps [TimerOp.start 0 1000 ClockState.working,
        TimerOp.pause 300]).IsRunning = false →
      (applyTimerOps [TimerOp.start 0 1000 ClockState.working,
        TimerOp.pause 300]).GetTimeRemaining 500 =
        (applyTimerOps [TimerOp.start 0 1000 ClockState.working,
          TimerOp.pause 300]).timeRemaining) ∧
     ((applyTimerOps [TimerOp.start 0 1000 ClockState.working,
        TimerOp.pause 300]).IsRunning = true →
      (applyTimerOps [TimerOp.start 0 1000 ClockState.working,
        TimerOp.pause 300]).GetTimeRemaining 500 =
        max 0 ((applyTimerOps [TimerOp.start 0 1000 ClockState.working,
          TimerOp.pause 300]).sessionDuration -
          (500 - (applyTimerOps [TimerOp.start 0 1000 ClockState.working,
            TimerOp.pause 300]).startTime)))) :=
  ⟨by decide, claim_C6_remaining_never_negative
    [TimerOp.start 0 1000 ClockState.working, TimerOp.pause 300] 500 (by decide)⟩

/-- `SetCurrentSession` clamps every supplied index into range and keeps the
schedule. -/
theorem SetCurrentSession_clamped (sm : SessionManager) (i : Int)
    (h1 : sm.schedule ≠ []) :
    0 ≤ (sm.SetCurrentSession i).currentSession ∧
    (sm.SetCurrentSession i).currentSession < (sm.schedule.length : Int) ∧
    (sm.SetCurrentSession i).schedule = sm.schedule := by
  have hlen : 0 < sm.schedule.length := List.length_pos.mpr h1
  unfold SessionManager.SetCurrentSession
  dsimp only
  split
  · exact ⟨le_refl 0, by exact_mod_cast hlen, rfl⟩
  · split
    · refine ⟨by omega, by omega, rfl⟩
    · rename_i hneg hge
      exact ⟨by omega, by omega, rfl⟩

/-- `NextSession` resets the cursor to 0 and reports the wrap when the
increment reaches the schedule length. -/
theorem NextSession_wrap (sm : SessionManager)
    (h : sm.currentSession + 1 ≥ (sm.schedule.length : Int)) :
    ((sm.NextSession).1.currentSession = 0 ∧ (sm.NextSession).2 = false) := by
  unfold SessionManager.NextSession
  dsimp only
  rw [if_pos h]
  exact ⟨rfl, rfl⟩

/-- Every sequencer call preserves the sequencer invariant: non-empty
schedule, cursor within `[0, len-1]`. -/
theorem applySessionOp_invariant (sm : SessionManager) (op : SessionOp)
    (h1 : sm.schedule ≠ []) (h2 : 0 ≤ sm.currentSession)
    (h3 : sm.currentSession < (sm.schedule.length : Int)) :
    (applySessionOp sm op).schedule ≠ [] ∧
    0 ≤ (applySessionOp sm op).currentSession ∧
    (applySessionOp sm op).currentSession <
      ((applySessionOp sm op).schedule.length : Int) := by
  have hlen : 0 < sm.schedule.length := List.length_pos.mpr h1
  cases op with
  | next =>
    simp only [applySessionOp, SessionManager.NextSession]
    split
    · dsimp only
      exact ⟨h1, le_refl 0, by exact_mod_cast hlen⟩
    · rename_i hlt
      dsimp only
      refine ⟨h1, by omega, by omega⟩
  | reset =>
    simp only [applySessionOp, SessionManager.ResetSessions]
    exact ⟨h1, le_refl 0, by exact_mod_cast hlen⟩
  | setCurrent i =>
    have hc := SetCurrentSession_clamped sm i h1
    simp only [applySessionOp]
    refine ⟨?_, hc.1, ?_⟩
    · rw [hc.2.2]; exact h1
    · rw [hc.2.2]; exact hc.2.1
  | setSchedule l =>
    simp only [applySessionOp]
    split
    · rename_i sm2 heq
      unfold SessionManager.SetSchedule at heq
      split at heq
      · simp at heq
      · split at heq
        · simp at heq
        · rename_i hany hemp
          simp only [Except.ok.injEq] at heq
          subst heq
          have hpos : 0 < l.length := by omega
          dsimp only
          refine ⟨?_, le_refl 0, by exact_mod_cast hpos⟩
          intro hnil
          simp [hnil] at hpos
    · exact ⟨h1, h2, h3⟩
  | setDurations w s l =>
    simp only [applySessionOp, SessionManager.SetDurations]
    exact ⟨h1, h2, h3⟩

/-- The sequencer invariant holds after any call sequence, from any state
satisfying it. -/
theorem foldl_sessionOps_invariant (ops : List SessionOp) (sm : SessionManager)
    (h1 : sm.schedule ≠ []) (h2 : 0 ≤ sm.currentSession)
    (h3 : sm.currentSession < (sm.schedule.length : Int)) :
    (ops.foldl applySessionOp sm).schedule ≠ [] ∧
    0 ≤ (ops.foldl applySessionOp sm).currentSession ∧
    (ops.foldl applySessionOp sm).currentSession <
      ((ops.foldl applySessionOp sm).schedule.length : Int) := by
  induction ops generalizing sm with
  | nil => exact ⟨h1, h2, h3⟩
  | cons op ops ih =>
    simp only [List.foldl_cons]
    have hstep := applySessionOp_invariant sm op h1 h2 h3
    exact ih (applySessionOp sm op) hstep.1 hstep.2.1 hstep.2.2

/-- C7: after any sequence of sequencer calls from the initial manager the
schedule is non-empty and the cursor lies in `[0, len-1]`; moreover
`SetCurrentSession` clamps every supplied index into that range (keeping the
schedule) and `NextSession` resets the cursor to 0 and returns `false` when
the increment wraps past the end. -/
theorem claim_C7_sequencer_invariant (ops : List SessionOp) (i : Int) :
    (applySessionOps ops).schedule ≠ [] ∧
    0 ≤ (applySessionOps ops).currentSession ∧
    (applySessionOps ops).currentSession <
      ((applySessionOps ops).schedule.length : Int) ∧
    (0 ≤ ((applySessionOps ops).SetCurrentSession i).currentSession ∧
     ((applySessionOps ops).SetCurrentSession i).currentSession <
       ((applySessionOps ops).schedule.length : Int) ∧
     ((applySessionOps ops).SetCurrentSession i).schedule =
       (applySessionOps ops).schedule) ∧
    ((applySessionOps ops).currentSession + 1 ≥
        ((applySessionOps ops).schedule.length : Int) →
      (((applySessionOps ops).NextSession).1.currentSession = 0 ∧
       ((applySessionOps ops).NextSession).2 = false)) := by
  have hinv := foldl_sessionOps_invariant ops SessionManager.new
    (by decide) (by decide) (by decide)
  exact ⟨hinv.1, hinv.2.1, hinv.2.2,
    SetCurrentSession_clamped (applySessionOps ops) i hinv.1,
    fun hw => NextSession_wrap (applySessionOps ops) hw⟩

/-- C7 witness: after clamping an out-of-range index and advancing once, the
invariant, the clamping of index -5 and the wrap behaviour all hold
concretely. -/
theorem claim_C7_witness :
    (applySessionOps [SessionOp.setCurrent 99, SessionOp.next]).schedule ≠ [] ∧
    0 ≤ (applySessionOps [SessionOp.setCurrent 99, SessionOp.next]).currentSession ∧
    (applySessionOps [SessionOp.setCurrent 99, SessionOp.next]).currentSession <
      ((applySessionOps [SessionOp.setCurrent 99, SessionOp.next]).schedule.length : Int) ∧
    (0 ≤ ((applySessionOps [SessionOp.setCurrent 99, SessionOp.next]).SetCurrentSession (-5)).currentSession ∧
     ((applySessionOps [SessionOp.setCurrent 99, SessionOp.next]).SetCurrentSession (-5)).currentSession <
       ((applySessionOps [SessionOp.setCurrent 99, SessionOp.next]).schedule.length : Int) ∧
     ((applySessionOps [SessionOp.setCurrent 99, SessionOp.next]).SetCurrentSession (-5)).schedule =
       (applySessionOps [SessionOp.setCurrent 99, SessionOp.next]).schedule) ∧
    ((applySessionOps [SessionOp.setCurrent 99, SessionOp.next]).currentSession + 1 ≥
        ((applySessionOps [SessionOp.setCurrent 99, SessionOp.next]).schedule.length : Int) →
      (((applySessionOps [SessionOp.setCurrent 99, SessionOp.next]).NextSession).1.currentSession = 0 ∧
       ((applySessionOps [SessionOp.setCurrent 99, SessionOp.next]).NextSession).2 = false)) :=
  claim_C7_sequencer_invariant [SessionOp.setCurrent 99, SessionOp.next] (-5)

/-- C3: each control operation returns a typed failure exactly when its
legality predicate is false — `CanStart` iff Idle/Paused, `CanPause` iff an
active phase, `CanSkip` iff active or Paused, `CanStop` iff not Idle — and a
failed Start/Pause/Stop/Skip returns the engine completely unchanged (phase,
cursor, timer and statistics). -/
theorem claim_C3_typed_failures_no_state_change (cr : ClockRunner) (now : Int) :
    (cr.stateManager.CanStart = true ↔
      cr.GetState = .idle ∨ cr.GetState = .paused) ∧
    (cr.stateManager.CanPause = true ↔
      cr.GetState = .working ∨ cr.GetState = .shortBreak ∨ cr.GetState = .longBreak) ∧
    (cr.stateManager.CanStop = true ↔ ¬ cr.GetState = .idle) ∧
    (cr.stateManager.CanSkip = true ↔
      cr.GetState = .working ∨ cr.GetState = .shortBreak ∨
      cr.GetState = .longBreak ∨ cr.GetState = .paused) ∧
    ((cr.Start now).2 = none ↔ cr.stateManager.CanStart = true) ∧
    ((cr.Pause now).2 = none ↔ cr.stateManager.CanPause = true) ∧
    (cr.Stop.2 = none ↔ cr.stateManager.CanStop = true) ∧
    ((cr.Skip now).2 = none ↔ cr.stateManager.CanSkip = true) ∧
    (¬ (cr.Start now).2 = none → (cr.Start now).1 = cr) ∧
    (¬ (cr.Pause now).2 = none → (cr.Pause now).1 = cr) ∧
    (¬ cr.Stop.2 = none → cr.Stop.1 = cr) ∧
    (¬ (cr.Skip now).2 = none → (cr.Skip now).1 = cr) := by
  obtain ⟨⟨st⟩, sm, tm, stats⟩ := cr
  rcases hns : sm.NextSession with ⟨sm2, more⟩
  cases st <;> cases more <;>
    simp_all [ClockRunner.Start, ClockRunner.Pause, ClockRunner.Stop,
      ClockRunner.Skip, ClockRunner.GetState, ClockRunner.startNewSession,
      StateManager.GetState, StateManager.SetState, StateManager.CanStart,
      StateManager.CanPause, StateManager.CanStop, StateManager.CanSkip,
      StateManager.IsIdle, StateManager.IsRunning, StateManager.IsPaused]

/-- C3 witness: a paused engine — Start and Skip are legal, Pause is a typed
failure leaving the engine unchanged, Stop is legal. -/
theorem claim_C3_witness :
    ((ClockRunner.mk ⟨.paused⟩ SessionManager.new TimerManager.new
        StatisticsManager.new).stateManager.CanStart = true ↔
      (ClockRunner.mk ⟨.paused⟩ SessionManager.new TimerManager.new
        StatisticsManager.new).GetState = .idle ∨
      (ClockRunner.mk ⟨.paused⟩ SessionManager.new TimerManager.new
        StatisticsManager.new).GetState = .paused) ∧
    ((ClockRunner.mk ⟨.paused⟩ SessionManager.new TimerManager.new
        StatisticsManager.new).stateManager.CanPause = true ↔
      (ClockRunner.mk ⟨.paused⟩ SessionManager.new TimerManager.new
        StatisticsManager.new).GetState = .working ∨
      (ClockRunner.mk ⟨.paused⟩ SessionManager.new TimerManager.new
        StatisticsManager.new).GetState = .shortBreak ∨
      (ClockRunner.mk ⟨.paused⟩ SessionManager.new TimerManager.new
        StatisticsManager.new).GetState = .longBreak) ∧
    ((ClockRunner.mk ⟨.paused⟩ SessionManager.new TimerManager.new
        StatisticsManager.new).stateManager.CanStop = true ↔
      ¬ (ClockRunner.mk ⟨.paused⟩ SessionManager.new TimerManager.new
        StatisticsManager.new).GetState = .idle) ∧
    ((ClockRunner.mk ⟨.paused⟩ SessionManager.new TimerManager.new
        StatisticsManager.new).stateManager.CanSkip = true ↔
      (ClockRunner.mk ⟨.paused⟩ SessionManager.new TimerManager.new
        StatisticsManager.new).GetState = .working ∨
      (ClockRunner.mk ⟨.paused⟩ SessionManager.new TimerManager.new
        StatisticsManager.new).GetState = .shortBreak ∨
      (ClockRunner.mk ⟨.paused⟩ SessionManager.new TimerManager.new
        StatisticsManager.new).GetState = .longBreak ∨
      (ClockRunner.mk ⟨.paused⟩ SessionManager.new TimerManager.new
        StatisticsManager.new).GetState = .paused) ∧
    (((ClockRunner.mk ⟨.paused⟩ SessionManager.new TimerManager.new
        StatisticsManager.new).Start 0).2 = none ↔
      (ClockRunner.mk ⟨.paused⟩ SessionManager.new TimerManager.new
        StatisticsManager.new).stateManager.CanStart = true) ∧
    (((ClockRunner.mk ⟨.paused⟩ SessionManager.new TimerManager.new
        StatisticsManager.new).Pause 0).2 = none ↔
      (ClockRunner.mk ⟨.paused⟩ SessionManager.new TimerManager.new
        StatisticsManager.new).stateManager.CanPause = true) ∧
    ((ClockRunner.mk ⟨.paused⟩ SessionManager.new TimerManager.new
        StatisticsManager.new).Stop.2 = none ↔
      (ClockRunner.mk ⟨.paused⟩ SessionManager.new TimerManager.new
        StatisticsManager.new).stateManager.CanStop = true) ∧
    (((ClockRunner.mk ⟨.paused⟩ SessionManager.new TimerManager.new
        StatisticsManager.new).Skip 0).2 = none ↔
      (ClockRunner.mk ⟨.paused⟩ SessionManager.new TimerManager.new
        StatisticsManager.new).stateManager.CanSkip = true) ∧
    (¬ ((ClockRunner.mk ⟨.paused⟩ SessionManager.new TimerManager.new
        StatisticsManager.new).Start 0).2 = none →
      ((ClockRunner.mk ⟨.paused⟩ SessionManager.new TimerManager.new
        StatisticsManager.new).Start 0).1 =
        ClockRunner.mk ⟨.paused⟩ SessionManager.new TimerManager.new
          StatisticsManager.new) ∧
    (¬ ((ClockRunner.mk ⟨.paused⟩ SessionManager.new TimerManager.new
        StatisticsManager.new).Pause 0).2 = none →
      ((ClockRunner.mk ⟨.paused⟩ SessionManager.new TimerManager.new
        StatisticsManager.new).Pause 0).1 =
        ClockRunner.mk ⟨.paused⟩ SessionManager.new TimerManager.new
          StatisticsManager.new) ∧
    (¬ (ClockRunner.mk ⟨.paused⟩ SessionManager.new TimerManager.new
        StatisticsManager.new).Stop.2 = none →
      (ClockRunner.mk ⟨.paused⟩ SessionManager.new TimerManager.new
        StatisticsManager.new).Stop.1 =
        ClockRunner.mk ⟨.paused⟩ SessionManager.new TimerManager.new
          StatisticsManager.new) ∧
    (¬ ((ClockRunner.mk ⟨.paused⟩ SessionManager.new TimerManager.new
        StatisticsManager.new).Skip 0).2 = none →
      ((ClockRunner.mk ⟨.paused⟩ SessionManager.new TimerManager.new
        StatisticsManager.new).Skip 0).1 =
        ClockRunner.mk ⟨.paused⟩ SessionManager.new TimerManager.new
          StatisticsManager.new) :=
  claim_C3_typed_failures_no_state_change
    (ClockRunner.mk ⟨.paused⟩ SessionManager.new TimerManager.new
      StatisticsManager.new) 0

/-- C9: skipping while Paused succeeds, and the `SessionRecord` appended to
the history carries `State = Paused` (the control state, not the scheduled
phase); the `RecordSession` switch has no case for Paused, so none of the
three completion counters moves, while the record's duration is still added
to `totalSessionTime`. -/
theorem claim_C9_skip_while_paused_records_paused (cr : ClockRunner) (now : Int)
    (h : cr.GetState = .paused) :
    (cr.Skip now).2 = none ∧
    (cr.Skip now).1.statsManager.sessionHistory =
      cr.statsManager.sessionHistory ++
        [SessionRecord.mk .paused cr.sessionManager.GetCurrentSessionDuration now] ∧
    (cr.Skip now).1.statsManager.totalWorkSessions =
      cr.statsManager.totalWorkSessions ∧
    (cr.Skip now).1.statsManager.totalShortBreaks =
      cr.statsManager.totalShortBreaks ∧
    (cr.Skip now).1.statsManager.totalLongBreaks =
      cr.statsManager.totalLongBreaks ∧
    (cr.Skip now).1.statsManager.totalSessionTime =
      cr.statsManager.totalSessionTime +
        cr.sessionManager.GetCurrentSessionDuration := by
  obtain ⟨⟨st⟩, sm, tm, stats⟩ := cr
  simp only [ClockRunner.GetState, StateManager.GetState] at h
  subst h
  rcases hns : sm.NextSession with ⟨sm2, more⟩
  cases more <;>
    simp_all [ClockRunner.Skip, ClockRunner.startNewSession,
      StateManager.CanSkip, StateManager.IsRunning, StateManager.IsPaused,
      StateManager.GetState, StateManager.SetState,
      StatisticsManager.RecordSession]

/-- C9 witness: skipping a freshly-paused engine appends a Paused record of
the scheduled duration and moves no completion counter. -/
theorem claim_C9_witness :
    (ClockRunner.mk ⟨.paused⟩ SessionManager.new TimerManager.new
        StatisticsManager.new).GetState = .paused ∧
    (((ClockRunner.mk ⟨.paused⟩ SessionManager.new TimerManager.new
        StatisticsManager.new).Skip 7).2 = none ∧
     ((ClockRunner.mk ⟨.paused⟩ SessionManager.new TimerManager.new
        StatisticsManager.new).Skip 7).1.statsManager.sessionHistory =
       (ClockRunner.mk ⟨.paused⟩ SessionManager.new TimerManager.new
          StatisticsManager.new).statsManager.sessionHistory ++
         [SessionRecord.mk .paused
           (ClockRunner.mk ⟨.paused⟩ SessionManager.new TimerManager.new
              StatisticsManager.new).sessionManager.GetCurrentSessionDuration 7] ∧
     ((ClockRunner.mk ⟨.paused⟩ SessionManager.new TimerManager.new
        StatisticsManager.new).Skip 7).1.statsManager.totalWorkSessions =
       (ClockRunner.mk ⟨.paused⟩ SessionManager.new TimerManager.new
          StatisticsManager.new).statsManager.totalWorkSessions ∧
     ((ClockRunner.mk ⟨.paused⟩ SessionManager.new TimerManager.new
        StatisticsManager.new).Skip 7).1.statsManager.totalShortBreaks =
       (ClockRunner.mk ⟨.paused⟩ SessionManager.new TimerManager.new
          StatisticsManager.new).statsManager.totalShortBreaks ∧
     ((ClockRunner.mk ⟨.paused⟩ SessionManager.new TimerManager.new
        StatisticsManager.new).Skip 7).1.statsManager.totalLongBreaks =
       (ClockRunner.mk ⟨.paused⟩ SessionManager.new TimerManager.new
          StatisticsManager.new).statsManager.totalLongBreaks ∧
     ((ClockRunner.mk ⟨.paused⟩ SessionManager.new TimerManager.new
        StatisticsManager.new).Skip 7).1.statsManager.totalSessionTime =
       (ClockRunner.mk ⟨.paused⟩ SessionManager.new TimerManager.new
          StatisticsManager.new).statsManager.totalSessionTime +
         (ClockRunner.mk ⟨.paused⟩ SessionManager.new TimerManager.new
            StatisticsManager.new).sessionManager.GetCurrentSessionDuration) :=
  ⟨rfl, claim_C9_skip_while_paused_records_paused
    (ClockRunner.mk ⟨.paused⟩ SessionManager.new TimerManager.new
      StatisticsManager.new) 7 rfl⟩

end PomodoroClock
